import Mathlib

/-!
Verification of the news-article pipeline (`src/testing.py`).

The Python source is shallowly embedded: pure helpers become Lean
functions, the retry loop and the per-article loops become structural
recursions, exceptions raised by external collaborators (search
provider, scraper, summarizer) are modelled with `Except`, and the
Streamlit-driven `main` body becomes a pure pipeline function that
records which stages ran and what they produced.
-/

namespace NewsPipeline

/-- Model of a Python exception that a collaborator may raise:
`duckduckgo_search` raises `RatelimitException`, anything else is a
generic exception carrying its message. -/
inductive PyExc where
  | rateLimited : PyExc
  | other : String → PyExc
deriving Repr, DecidableEq

/-! ### Python `str.split()` and `" ".join`

`text.split()` with no argument splits on runs of whitespace and drops
empty pieces.  We model it on the character list of the string. -/

/-- The ASCII whitespace characters recognised by Python `str.split()`. -/
def pyIsSpace (c : Char) : Bool :=
  c = ' ' || c = '\t' || c = '\n' || c = '\r' || c = '\x0b' || c = '\x0c'

/-- Accumulator pass behind `pyWords`: `cur` holds the (reversed)
current word being scanned. -/
def pyWordsAux : List Char → List Char → List (List Char)
  | [], cur => if cur.isEmpty then [] else [cur.reverse]
  | c :: cs, cur =>
    if pyIsSpace c then
      if cur.isEmpty then pyWordsAux cs [] else cur.reverse :: pyWordsAux cs []
    else pyWordsAux cs (c :: cur)

/-- The whitespace-delimited words of a character list, as Python
`str.split()` produces them (runs of whitespace collapse, no empty
words). -/
def pyWords (l : List Char) : List (List Char) := pyWordsAux l []

/-- `len(s.split())`: the number of whitespace-delimited words of `s`. -/
def wordCount (s : String) : Nat := (pyWords s.data).length

/-- Python `" ".join(ws)`: concatenation with a single space between
consecutive elements. -/
def joinSpace : List (List Char) → List Char
  | [] => []
  | [w] => w
  | w :: ws => w ++ ' ' :: joinSpace ws

/-- `truncate_text` from `src/testing.py` line 52:
`" ".join(text.split()[:words])`. -/
def truncate_text (text : String) (words : Nat) : String :=
  String.mk (joinSpace ((pyWords text.data).take words))

/-! ### Search results and retrieval with retry -/

/-- One result dict returned by `ddgs.news`: the keys the pipeline
reads.  `url` is an `Option` because the collection loop guards on
`"url" in r`. -/
structure SearchResult where
  url : Option String
  title : String
  date : String
  body : String
deriving Repr, DecidableEq

/-- Recursive form of the `for attempt in range(max_retries)` loop of
`get_news_with_retry` (`src/testing.py` lines 73-86), over the list of
attempt indices still to run.  The provider is indexed by the attempt
number so that each call may behave differently; `.error` models a
raised exception, and the clause `except (RatelimitException,
Exception)` catches every such exception.  Besides the result list the
model returns the number of provider attempts made and the list of
back-off delays slept, in order; an `.error` result would model an
exception escaping to the caller. -/
def retryAttempts (provider : String → Nat → Nat → Except PyExc (List SearchResult))
    (keywords : String) (max_results : Nat) (max_retries : Nat)
    (initial_delay : ℚ) :
    List Nat → Except PyExc (List SearchResult × Nat × List ℚ)
  | [] => .ok ([], 0, [])
  | attempt :: later =>
    match provider keywords max_results attempt with
    | .ok results => .ok (results, 1, [])
    | .error _ =>
      if attempt < max_retries - 1 then
        let delay := initial_delay * 2 ^ attempt
        match retryAttempts provider keywords max_results max_retries initial_delay later with
        | .ok (r, n, ds) => .ok (r, n + 1, delay :: ds)
        | .error e2 => .error e2
      else .ok ([], 1, [])

/-- `get_news_with_retry` from `src/testing.py`: run the attempt loop
over `range(max_retries)`. -/
def get_news_with_retry (provider : String → Nat → Nat → Except PyExc (List SearchResult))
    (keywords : String) (max_results : Nat) (max_retries : Nat)
    (initial_delay : ℚ) : Except PyExc (List SearchResult × Nat × List ℚ) :=
  retryAttempts provider keywords max_results max_retries initial_delay
    (List.range max_retries)

/-! ### Article collection -/

/-- The dict returned by `newspaper_tools.get_article_data`, as an
association list of string keys to string values. -/
abbrev ArticleData := List (String × String)

/-- A search-result dict that was kept by the collection loop: the
original dict (which necessarily had a `"url"` key, recorded in `url`)
mutated with the scraped `"text"` value. -/
structure CollectedArticle where
  result : SearchResult
  url : String
  text : String
deriving Repr, DecidableEq

/-- The collection loop of `main` (`src/testing.py` lines 168-178).
For each result with a `"url"` key the scraper is called; a raised
exception (`.error`) is swallowed and the item dropped; the item is kept
exactly when the returned `article_data` is truthy (not `None`, not the
empty dict) and contains a `"text"` key — mirroring
`if article_data and "text" in article_data`. -/
def collect (scrape : String → Except PyExc (Option ArticleData)) :
    List SearchResult → List CollectedArticle
  | [] => []
  | r :: rs =>
    match r.url with
    | none => collect scrape rs
    | some u =>
      match scrape u with
      | .error _ => collect scrape rs
      | .ok none => collect scrape rs
      | .ok (some d) =>
        if d = [] then collect scrape rs
        else
          match d.lookup "text" with
          | some t => { result := r, url := u, text := t } :: collect scrape rs
          | none => collect scrape rs

/-! ### Budgeted summarization -/

/-- The fixed block header appended for one article
(`src/testing.py` lines 191-194): title, date, URL and the
introduction taken from the result's `body` snippet. -/
def renderHeader (a : CollectedArticle) : String :=
  "### " ++ a.result.title ++ "\n\n" ++
  "- Date: " ++ a.result.date ++ "\n\n" ++
  "- URL: " ++ a.url ++ "\n\n" ++
  "#### Introduction\n\n" ++ a.result.body ++ "\n\n"

/-- One complete block appended to the running news summary: the header
followed by the (possibly truncated) summary portion and the separator
(`src/testing.py` lines 191-203). -/
def renderBlock (a : CollectedArticle) (s : String) : String :=
  renderHeader a ++ "#### Summary\n\n" ++ s ++ "\n\n---\n\n"

/-- One block the summarization loop emitted: the article it came from
and the summary portion placed after `#### Summary` (after any
truncation). -/
structure EmittedBlock where
  article : CollectedArticle
  summary : String
deriving Repr, DecidableEq

/-- Observable outcome of the summarization loop: the final value of
the `news_summary` string, the blocks emitted in order, and the
exception, if the summarizer collaborator raised one (in which case the
loop stopped with the current article's header already appended but no
complete block for it). -/
structure SummOut where
  text : String
  blocks : List EmittedBlock
  err : Option PyExc
deriving Repr, DecidableEq

/-- The summarization loop of `main` (`src/testing.py` lines 190-208),
accumulating into `acc` (the `news_summary` string, `""` initially).
For each article: append the header; call the summarizer collaborator
`sFn` on the full text (a raised exception is not caught and aborts the
loop); if the summary's word count exceeds `news_summary_length`,
truncate it to the first `news_summary_length` words; append the
summary portion and separator; then `break` if the cumulative word
count of `news_summary` exceeds `news_summary_length`. -/
def summarizeLoop (sFn : String → Except PyExc String) (news_summary_length : Nat) :
    List CollectedArticle → String → SummOut
  | [], acc => { text := acc, blocks := [], err := none }
  | a :: rest, acc =>
    let acc1 := acc ++ renderHeader a
    match sFn a.text with
    | .error e => { text := acc1, blocks := [], err := some e }
    | .ok s0 =>
      let s := if wordCount s0 > news_summary_length
               then truncate_text s0 news_summary_length else s0
      let acc2 := acc1 ++ "#### Summary\n\n" ++ s ++ "\n\n---\n\n"
      if wordCount acc2 > news_summary_length then
        { text := acc2, blocks := [{ article := a, summary := s }], err := none }
      else
        let out := summarizeLoop sFn news_summary_length rest acc2
        { text := out.text, blocks := { article := a, summary := s } :: out.blocks,
          err := out.err }

/-! ### Draft assembly -/

/-- The draft assembly of `main` (`src/testing.py` lines 217-224):
pure string composition of the use-case label, the topic and the news
summary, with the summary section guarded by the truthiness check
`if news_summary:`. -/
def assembleDraft (use_case article_topic news_summary : String) : String :=
  let d0 := "" ++ "# " ++ use_case ++ ": " ++ article_topic ++ "\n\n"
  if news_summary ≠ "" then
    d0 ++ "## Summary of Articles on " ++ article_topic ++ "\n\n" ++
    "This section provides a comprehensive " ++ use_case.toLower ++
    " summary about " ++ article_topic ++ ".\n\n" ++
    "<news_summary>\n\n" ++ news_summary ++ "\n\n" ++ "</news_summary>\n\n"
  else d0

/-! ### The pipeline -/

/-- Terminal outcome of one `Write Article` run. -/
inductive PipelineOutcome where
  | skippedNoNews : String → PipelineOutcome
  | done : String → PipelineOutcome
  | aborted : PyExc → PipelineOutcome
deriving Repr, DecidableEq

/-- Observable trace of one run of the body of `main` after the
`Write Article` button: the collected articles, whether the summarizer
stage ran, the final `news_summary` (`none` models Python `None`), the
emitted summary blocks, the assembled draft (when reached), whether the
writer/generator ran, and the terminal outcome. -/
structure PipelineTrace where
  news_results : List CollectedArticle
  summarizerInvoked : Bool
  news_summary : Option String
  summary_blocks : List EmittedBlock
  article_draft : Option String
  generatorInvoked : Bool
  outcome : PipelineOutcome
deriving Repr, DecidableEq

/-- The configuration `main` reads from the sidebar widgets before the
run. -/
structure PipelineConfig where
  use_case : String
  article_topic : String
  num_search_results : Nat
  per_article_summary_length : Nat
  news_summary_length : Nat
  summary_model : String
  writer_model : String

/-- The external collaborators of the pipeline: the search provider
(indexed by keywords, max results and attempt number), the scraper, the
summarizer factory `get_article_summarizer(model, length)` and the
writer factory `get_article_writer(model)` whose run yields a finite
sequence of text deltas. -/
structure Collaborators where
  provider : String → Nat → Nat → Except PyExc (List SearchResult)
  scrape : String → Except PyExc (Option ArticleData)
  summarizerOf : String → Nat → String → Except PyExc String
  writerOf : String → String → List String

/-- The stages of `main` after the fetch (`src/testing.py` lines
162-238): collect, and — when at least one article was collected —
summarize with the collaborator built from `summary_model` and
`per_article_summary_length`, assemble the draft, and accumulate the
writer's deltas into the final report.  When zero articles are
collected, `news_summary` stays `None` and the run stops with the
user-visible no-results message. -/
def pipelineAfterFetch (cfg : PipelineConfig) (co : Collaborators)
    (results : List SearchResult) : PipelineTrace :=
    let news_results := collect co.scrape results
    if news_results.length > 0 then
      let sFn := co.summarizerOf cfg.summary_model cfg.per_article_summary_length
      let out := summarizeLoop sFn cfg.news_summary_length news_results ""
      match out.err with
      | some e =>
        { news_results := news_results, summarizerInvoked := true,
          news_summary := some out.text, summary_blocks := out.blocks,
          article_draft := none, generatorInvoked := false, outcome := .aborted e }
      | none =>
        let article_draft := assembleDraft cfg.use_case cfg.article_topic out.text
        let final_report := String.join (co.writerOf cfg.writer_model article_draft)
        { news_results := news_results, summarizerInvoked := true,
          news_summary := some out.text, summary_blocks := out.blocks,
          article_draft := some article_draft, generatorInvoked := true,
          outcome := .done final_report }
    else
      { news_results := news_results, summarizerInvoked := false,
        news_summary := none, summary_blocks := [], article_draft := none,
        generatorInvoked := false,
        outcome := .skippedNoNews
          "Sorry could not find any news or web search results. Please try again." }

/-- The body of `main` after the `Write Article` button: the fetch
with retry (`max_retries = 3`, `initial_delay = 5.0`), then the
post-fetch stages; an exception escaping the fetch (which cannot
happen, cf. C9) would abort the run. -/
def runPipeline (cfg : PipelineConfig) (co : Collaborators) : PipelineTrace :=
  match get_news_with_retry co.provider cfg.article_topic cfg.num_search_results 3 5 with
  | .error e =>
    { news_results := [], summarizerInvoked := false, news_summary := none,
      summary_blocks := [], article_draft := none, generatorInvoked := false,
      outcome := .aborted e }
  | .ok (results, _, _) => pipelineAfterFetch cfg co results

/-- Concatenation of a list of strings, used to state how the running
`news_summary` decomposes into the emitted blocks. -/
def strConcat : List String → String
  | [] => ""
  | s :: l => s ++ strConcat l

/-! ### Properties of the word-splitting model -/

/-- Every word produced by the splitting scan is non-empty and free of
whitespace, provided the in-progress word is. -/
lemma pyWordsAux_sound : ∀ (l cur : List Char),
    (∀ c ∈ cur, pyIsSpace c = false) →
    ∀ w ∈ pyWordsAux l cur, w ≠ [] ∧ ∀ c ∈ w, pyIsSpace c = false := by
  intro l
  induction l with
  | nil =>
    intro cur hcur w hw
    by_cases h : cur.isEmpty
    · simp [pyWordsAux, h] at hw
    · simp [pyWordsAux, h] at hw
      subst hw
      refine ⟨?_, ?_⟩
      · simp only [List.isEmpty_iff] at h
        simpa using h
      · intro c hc
        exact hcur c (List.mem_reverse.mp hc)
  | cons c cs ih =>
    intro cur hcur w hw
    by_cases hsp : pyIsSpace c
    · by_cases hce : cur.isEmpty
      · simp [pyWordsAux, hsp, hce] at hw
        exact ih [] (by simp) w hw
      · simp [pyWordsAux, hsp, hce] at hw
        rcases hw with hw | hw
        · subst hw
          refine ⟨?_, ?_⟩
          · simp only [List.isEmpty_iff] at hce
            simpa using hce
          · intro c' hc'
            exact hcur c' (List.mem_reverse.mp hc')
        · exact ih [] (by simp) w hw
    · simp [pyWordsAux, hsp] at hw
      refine ih (c :: cur) ?_ w hw
      intro c' hc'
      rcases List.mem_cons.mp hc' with h | h
      · subst h
        simpa using hsp
      · exact hcur c' h

/-- Scanning a whitespace-free chunk just moves it into the in-progress
word. -/
lemma pyWordsAux_append_word : ∀ (w cs cur : List Char),
    (∀ c ∈ w, pyIsSpace c = false) →
    pyWordsAux (w ++ cs) cur = pyWordsAux cs (w.reverse ++ cur) := by
  intro w
  induction w with
  | nil => intro cs cur _; simp
  | cons c w ih =>
    intro cs cur hw
    have hc : pyIsSpace c = false := hw c (by simp)
    have h1 : pyWordsAux (c :: (w ++ cs)) cur = pyWordsAux (w ++ cs) (c :: cur) := by
      simp [pyWordsAux, hc]
    simp only [List.cons_append]
    rw [h1, ih cs (c :: cur) (fun c' h' => hw c' (by simp [h']))]
    simp

/-- Splitting is a left inverse of joining with single spaces, on lists
of non-empty whitespace-free words. -/
lemma pyWords_joinSpace : ∀ (ws : List (List Char)),
    (∀ w ∈ ws, w ≠ [] ∧ ∀ c ∈ w, pyIsSpace c = false) →
    pyWords (joinSpace ws) = ws := by
  intro ws
  induction ws with
  | nil => intro _; rfl
  | cons w ws ih =>
    intro h
    obtain ⟨hne, hsp⟩ := h w (by simp)
    have hrev : ¬ w.reverse.isEmpty := by
      simp only [List.isEmpty_iff, List.reverse_eq_nil_iff]
      exact hne
    cases ws with
    | nil =>
      show pyWordsAux (joinSpace [w]) [] = [w]
      have h1 : joinSpace [w] = w ++ [] := by simp [joinSpace]
      rw [h1, pyWordsAux_append_word w [] [] hsp]
      simp [pyWordsAux, hrev]
    | cons w2 ws2 =>
      show pyWordsAux (joinSpace (w :: w2 :: ws2)) [] = w :: w2 :: ws2
      have h1 : joinSpace (w :: w2 :: ws2) = w ++ (' ' :: joinSpace (w2 :: ws2)) := rfl
      rw [h1, pyWordsAux_append_word w _ [] hsp]
      have h2 := ih (fun w' hw' => h w' (by simp [hw']))
      have hspace : pyIsSpace ' ' = true := rfl
      simp [pyWordsAux, hspace, hrev]
      exact h2

/-- A truncated text has at most the requested number of words. -/
lemma wordCount_truncate_le (s : String) (n : Nat) :
    wordCount (truncate_text s n) ≤ n := by
  unfold wordCount truncate_text
  show (pyWords (joinSpace ((pyWords s.data).take n))).length ≤ n
  rw [pyWords_joinSpace]
  · exact le_trans (List.length_take_le n _) (le_refl n)
  · intro w hw
    exact pyWordsAux_sound s.data [] (by simp) w (List.mem_of_mem_take hw)

/-! ### Unfolding lemmas for the summarization loop -/

lemma summarizeLoop_nil (sFn : String → Except PyExc String) (len : Nat) (acc : String) :
    summarizeLoop sFn len [] acc = { text := acc, blocks := [], err := none } := rfl

lemma summarizeLoop_cons_error (sFn : String → Except PyExc String) (len : Nat)
    (a : CollectedArticle) (rest : List CollectedArticle) (acc : String) (e : PyExc)
    (h : sFn a.text = .error e) :
    summarizeLoop sFn len (a :: rest) acc =
      { text := acc ++ renderHeader a, blocks := [], err := some e } := by
  simp [summarizeLoop, h]

lemma summarizeLoop_cons_ok (sFn : String → Except PyExc String) (len : Nat)
    (a : CollectedArticle) (rest : List CollectedArticle) (acc : String) (s0 : String)
    (h : sFn a.text = .ok s0) :
    summarizeLoop sFn len (a :: rest) acc =
      (let s := if wordCount s0 > len then truncate_text s0 len else s0
       let acc2 := acc ++ renderHeader a ++ "#### Summary\n\n" ++ s ++ "\n\n---\n\n"
       if wordCount acc2 > len then
         { text := acc2, blocks := [{ article := a, summary := s }], err := none }
       else
         let out := summarizeLoop sFn len rest acc2
         { text := out.text, blocks := { article := a, summary := s } :: out.blocks,
           err := out.err }) := by
  simp [summarizeLoop, h]

/-- The per-article clipping step of the loop (`src/testing.py`
lines 197-199): truncate the collaborator's summary when its word count
exceeds `news_summary_length`. -/
def clipW (len : Nat) (s0 : String) : String :=
  if wordCount s0 > len then truncate_text s0 len else s0

/-- The rendered form of an emitted block. -/
def renderEmitted (b : EmittedBlock) : String := renderBlock b.article b.summary

lemma summarizeLoop_cons_ok2 (sFn : String → Except PyExc String) (len : Nat)
    (a : CollectedArticle) (rest : List CollectedArticle) (acc : String) (s0 : String)
    (h : sFn a.text = .ok s0) :
    summarizeLoop sFn len (a :: rest) acc =
      (if wordCount (acc ++ renderBlock a (clipW len s0)) > len then
        { text := acc ++ renderBlock a (clipW len s0),
          blocks := [{ article := a, summary := clipW len s0 }], err := none }
      else
        { text := (summarizeLoop sFn len rest (acc ++ renderBlock a (clipW len s0))).text,
          blocks := { article := a, summary := clipW len s0 }
            :: (summarizeLoop sFn len rest (acc ++ renderBlock a (clipW len s0))).blocks,
          err := (summarizeLoop sFn len rest (acc ++ renderBlock a (clipW len s0))).err }) := by
  simp [summarizeLoop, h, clipW, renderBlock, String.append_assoc]

/-! ### Retry lemmas -/

/-- Whatever the provider does, the attempt loop catches every raised
exception and produces a result. -/
lemma retryAttempts_ok (provider : String → Nat → Nat → Except PyExc (List SearchResult))
    (keywords : String) (max_results max_retries : Nat) (initial_delay : ℚ) :
    ∀ attempts, ∃ v,
      retryAttempts provider keywords max_results max_retries initial_delay attempts
        = .ok v := by
  intro attempts
  induction attempts with
  | nil => exact ⟨_, rfl⟩
  | cons a later ih =>
    obtain ⟨v, hv⟩ := ih
    obtain ⟨r, n, ds⟩ := v
    cases hp : provider keywords max_results a with
    | ok results => exact ⟨(results, 1, []), by simp [retryAttempts, hp]⟩
    | error e =>
      by_cases hlt : a < max_retries - 1
      · exact ⟨(r, n + 1, initial_delay * 2 ^ a :: ds), by simp [retryAttempts, hp, hlt, hv]⟩
      · exact ⟨([], 1, []), by simp [retryAttempts, hp, hlt]⟩

/-- When the provider fails on every attempt, a run of `n` remaining
attempt indices starting at `a` (with `a + n = max_retries`) performs
all `n` attempts, sleeps the exponential-back-off delays for indices
`a .. max_retries - 2`, and ends with the empty list. -/
lemma retryAttempts_allFail (provider : String → Nat → Nat → Except PyExc (List SearchResult))
    (keywords : String) (max_results max_retries : Nat) (initial_delay : ℚ)
    (hfail : ∀ i, ∃ e, provider keywords max_results i = .error e) :
    ∀ n a, a + n = max_retries →
      retryAttempts provider keywords max_results max_retries initial_delay
          (List.range' a n)
        = .ok ([], n, (List.range' a (n - 1)).map (fun i => initial_delay * 2 ^ i)) := by
  intro n
  induction n with
  | zero => intro a _; simp [retryAttempts]
  | succ k ihk =>
    intro a ha
    obtain ⟨e, he⟩ := hfail a
    rw [List.range'_succ]
    by_cases hk : k = 0
    · subst hk
      have hlt : ¬ a < max_retries - 1 := by omega
      simp [retryAttempts, he, hlt]
    · have hlt : a < max_retries - 1 := by omega
      have hrec := ihk (a + 1) (by omega)
      simp only [retryAttempts, he, hlt, if_pos, hrec]
      have hk1 : k = (k - 1) + 1 := by omega
      rw [show List.range' a (k + 1 - 1) = List.range' a ((k - 1) + 1) from by
            rw [Nat.add_sub_cancel, ← hk1],
        List.range'_succ]
      simp

/-- Structure of a completed (non-aborted) run of the summarization
loop: the final text is the accumulator followed by the rendered
emitted blocks; the blocks come from the prefix of the article list of
their own length; every proper prefix of the emitted blocks kept the
running word count within the budget (the loop only stops at the first
crossing); and either every article was processed or the final text
crossed the budget. -/
lemma summarizeLoop_spec (sFn : String → Except PyExc String) (len : Nat) :
    ∀ (articles : List CollectedArticle) (acc : String),
      (summarizeLoop sFn len articles acc).err = none →
      (summarizeLoop sFn len articles acc).text
          = acc ++ strConcat ((summarizeLoop sFn len articles acc).blocks.map renderEmitted)
      ∧ (summarizeLoop sFn len articles acc).blocks.map EmittedBlock.article
          = articles.take (summarizeLoop sFn len articles acc).blocks.length
      ∧ (∀ j, j + 1 < (summarizeLoop sFn len articles acc).blocks.length →
          wordCount (acc ++ strConcat
            (((summarizeLoop sFn len articles acc).blocks.take (j + 1)).map renderEmitted))
            ≤ len)
      ∧ ((summarizeLoop sFn len articles acc).blocks.length = articles.length
          ∨ len < wordCount ((summarizeLoop sFn len articles acc).text)) := by
  intro articles
  induction articles with
  | nil =>
    intro acc _
    simp [summarizeLoop_nil, strConcat, String.append_empty]
  | cons a rest ih =>
    intro acc herr
    cases hs : sFn a.text with
    | error e =>
      rw [summarizeLoop_cons_error sFn len a rest acc e hs] at herr
      simp at herr
    | ok s0 =>
      rw [summarizeLoop_cons_ok2 sFn len a rest acc s0 hs] at herr ⊢
      by_cases hcross : wordCount (acc ++ renderBlock a (clipW len s0)) > len
      · rw [if_pos hcross] at herr ⊢
        refine ⟨?_, ?_, ?_, ?_⟩
        · simp [strConcat, renderEmitted, String.append_empty]
        · simp
        · intro j hj
          simp at hj
        · right
          simpa using hcross
      · rw [if_neg hcross] at herr ⊢
        simp only at herr
        obtain ⟨ih1, ih2, ih3, ih4⟩ := ih (acc ++ renderBlock a (clipW len s0)) herr
        refine ⟨?_, ?_, ?_, ?_⟩
        · simp only
          rw [ih1]
          simp [strConcat, renderEmitted, String.append_assoc]
        · simp only [List.map_cons, List.length_cons, List.take_succ_cons, ih2]
        · intro j hj
          simp only [List.length_cons] at hj
          cases j with
          | zero =>
            simp only [List.take_succ_cons, List.take_zero, List.map_cons, List.map_nil,
              strConcat, renderEmitted]
            rw [← String.append_assoc, String.append_empty]
            omega
          | succ j2 =>
            have hj2 : j2 + 1 < (summarizeLoop sFn len rest
                (acc ++ renderBlock a (clipW len s0))).blocks.length := by omega
            have h3 := ih3 j2 hj2
            simp only [List.take_succ_cons, List.map_cons, strConcat, renderEmitted] at h3 ⊢
            rwa [← String.append_assoc]
        · simp only [List.length_cons]
          rcases ih4 with h4 | h4
          · left
            simp [h4]
          · right
            simpa using h4

/-- When the loop runs through a prefix `pre` completely (no abort, a
block for every article, budget never crossed), processing `pre ++ post`
continues into `post` from the text reached after `pre`. -/
lemma summarizeLoop_append (sFn : String → Except PyExc String) (len : Nat) :
    ∀ (pre post : List CollectedArticle) (acc : String),
      (summarizeLoop sFn len pre acc).err = none →
      (summarizeLoop sFn len pre acc).blocks.length = pre.length →
      wordCount ((summarizeLoop sFn len pre acc).text) ≤ len →
      summarizeLoop sFn len (pre ++ post) acc =
        { text := (summarizeLoop sFn len post ((summarizeLoop sFn len pre acc).text)).text,
          blocks := (summarizeLoop sFn len pre acc).blocks
            ++ (summarizeLoop sFn len post ((summarizeLoop sFn len pre acc).text)).blocks,
          err := (summarizeLoop sFn len post ((summarizeLoop sFn len pre acc).text)).err } := by
  intro pre
  induction pre with
  | nil =>
    intro post acc _ _ _
    simp [summarizeLoop_nil]
  | cons p pre ih =>
    intro post acc herr hlen hbud
    cases hs : sFn p.text with
    | error e =>
      rw [summarizeLoop_cons_error sFn len p pre acc e hs] at herr
      simp at herr
    | ok s0 =>
      rw [summarizeLoop_cons_ok2 sFn len p pre acc s0 hs] at herr hlen hbud
      by_cases hcross : wordCount (acc ++ renderBlock p (clipW len s0)) > len
      · rw [if_pos hcross] at hbud
        simp only at hbud
        omega
      · rw [if_neg hcross] at herr hlen hbud
        simp only [List.length_cons] at herr hlen hbud
        have hlen2 : (summarizeLoop sFn len pre
            (acc ++ renderBlock p (clipW len s0))).blocks.length = pre.length := by omega
        have hrec := ih post (acc ++ renderBlock p (clipW len s0)) herr hlen2 hbud
        rw [List.cons_append, summarizeLoop_cons_ok2 sFn len p (pre ++ post) acc s0 hs,
          if_neg hcross, hrec, summarizeLoop_cons_ok2 sFn len p pre acc s0 hs, if_neg hcross]
        simp

/-! ### Pipeline unfolding lemmas -/

lemma runPipeline_fetch_ok (cfg : PipelineConfig) (co : Collaborators)
    (results : List SearchResult) (n : Nat) (ds : List ℚ)
    (hv : get_news_with_retry co.provider cfg.article_topic cfg.num_search_results 3 5
        = .ok (results, n, ds)) :
    runPipeline cfg co = pipelineAfterFetch cfg co results := by
  unfold runPipeline
  rw [hv]

lemma pipelineAfterFetch_news_results (cfg : PipelineConfig) (co : Collaborators)
    (results : List SearchResult) :
    (pipelineAfterFetch cfg co results).news_results = collect co.scrape results := by
  simp only [pipelineAfterFetch]
  by_cases h : (collect co.scrape results).length > 0
  · rw [if_pos h]
    cases herr : (summarizeLoop
        (co.summarizerOf cfg.summary_model cfg.per_article_summary_length)
        cfg.news_summary_length (collect co.scrape results) "").err with
    | none => simp [herr]
    | some e => simp [herr]
  · rw [if_neg h]

lemma pipelineAfterFetch_nil (cfg : PipelineConfig) (co : Collaborators)
    (results : List SearchResult) (h : collect co.scrape results = []) :
    pipelineAfterFetch cfg co results =
      { news_results := [], summarizerInvoked := false, news_summary := none,
        summary_blocks := [], article_draft := none, generatorInvoked := false,
        outcome := .skippedNoNews
          "Sorry could not find any news or web search results. Please try again." } := by
  simp only [pipelineAfterFetch, h]
  rfl

lemma pipelineAfterFetch_err (cfg : PipelineConfig) (co : Collaborators)
    (results : List SearchResult) (e : PyExc)
    (hne : (collect co.scrape results).length > 0)
    (herr : (summarizeLoop
        (co.summarizerOf cfg.summary_model cfg.per_article_summary_length)
        cfg.news_summary_length (collect co.scrape results) "").err = some e) :
    pipelineAfterFetch cfg co results =
      { news_results := collect co.scrape results, summarizerInvoked := true,
        news_summary := some (summarizeLoop
          (co.summarizerOf cfg.summary_model cfg.per_article_summary_length)
          cfg.news_summary_length (collect co.scrape results) "").text,
        summary_blocks := (summarizeLoop
          (co.summarizerOf cfg.summary_model cfg.per_article_summary_length)
          cfg.news_summary_length (collect co.scrape results) "").blocks,
        article_draft := none, generatorInvoked := false,
        outcome := .aborted e } := by
  simp only [pipelineAfterFetch]
  rw [if_pos hne, herr]

/-! ### Claim theorems -/

/-- Claim C6: draft assembly is a pure deterministic function of
(useCase, topic, newsSummary).  In the embedding the assembly stage of
`main` is the function `assembleDraft` of exactly these three inputs,
so any two runs with identical values of the three inputs produce
byte-identical draft strings. -/
theorem c6_assembleDraft_deterministic (u t s u2 t2 s2 : String)
    (hu : u = u2) (ht : t = t2) (hs : s = s2) :
    assembleDraft u t s = assembleDraft u2 t2 s2 := by
  rw [hu, ht, hs]

/-- Witness for C6 at concrete inputs. -/
theorem c6_assembleDraft_deterministic_witness :
    "Business News" = "Business News" ∧ "Acme" = "Acme" ∧ "sum" = "sum" ∧
    assembleDraft "Business News" "Acme" "sum"
      = assembleDraft "Business News" "Acme" "sum" :=
  ⟨rfl, rfl, rfl,
    c6_assembleDraft_deterministic "Business News" "Acme" "sum"
      "Business News" "Acme" "sum" rfl rfl rfl⟩

/-- Claim C7: the collector's output is a subsequence of the input
result list — input order is preserved, dropped items are skipped, and
nothing is reordered.  Stated via the underlying result dict of each
kept article. -/
theorem c7_collect_sublist (scrape : String → Except PyExc (Option ArticleData))
    (rs : List SearchResult) :
    List.Sublist ((collect scrape rs).map CollectedArticle.result) rs := by
  induction rs with
  | nil => simp [collect]
  | cons r rs ih =>
    cases hu : r.url with
    | none => simpa [collect, hu] using List.Sublist.cons r ih
    | some u =>
      cases hsc : scrape u with
      | error e => simpa [collect, hu, hsc] using List.Sublist.cons r ih
      | ok ad =>
        cases ad with
        | none => simpa [collect, hu, hsc] using List.Sublist.cons r ih
        | some d =>
          by_cases hd : d = []
          · simpa [collect, hu, hsc, hd] using List.Sublist.cons r ih
          · cases ht : d.lookup "text" with
            | none => simpa [collect, hu, hsc, hd, ht] using List.Sublist.cons r ih
            | some t => simpa [collect, hu, hsc, hd, ht] using List.Sublist.cons₂ r ih

/-- Claim C9: the fetch is total with respect to provider failures —
whatever the provider does on each attempt (results or a raised
exception), `get_news_with_retry` returns a value and never lets an
exception escape to its caller. -/
theorem c9_get_news_with_retry_total
    (provider : String → Nat → Nat → Except PyExc (List SearchResult))
    (keywords : String) (max_results max_retries : Nat) (initial_delay : ℚ) :
    ∃ v, get_news_with_retry provider keywords max_results max_retries initial_delay
      = .ok v :=
  retryAttempts_ok provider keywords max_results max_retries initial_delay
    (List.range max_retries)

/-- Claim C4: with `max_retries = n ≥ 1` and a provider that raises on
every call, the fetch makes exactly `n` provider attempts, sleeps
`initial_delay * 2 ^ 0, …, initial_delay * 2 ^ (n-2)` seconds between
consecutive attempts (none after the last), and returns the empty
list. -/
theorem c4_get_news_with_retry_all_fail
    (provider : String → Nat → Nat → Except PyExc (List SearchResult))
    (keywords : String) (max_results n : Nat) (initial_delay : ℚ)
    (_hn : 1 ≤ n)
    (hfail : ∀ i, ∃ e, provider keywords max_results i = .error e) :
    get_news_with_retry provider keywords max_results n initial_delay =
      .ok ([], n, (List.range (n - 1)).map (fun i => initial_delay * 2 ^ i)) := by
  have hn2 : 0 + n = n := by omega
  unfold get_news_with_retry
  rw [List.range_eq_range',
    retryAttempts_allFail provider keywords max_results n initial_delay hfail n 0 hn2,
    List.range_eq_range']

/-- Witness for C4: three attempts, all rate-limited, with initial
delay 5: three provider calls, sleeps of 5 and 10 seconds, empty
result. -/
theorem c4_get_news_with_retry_all_fail_witness :
    1 ≤ 3 ∧
    get_news_with_retry (fun _ _ _ => .error .rateLimited) "acme merger" 5 3 5 =
      .ok ([], 3, [5, 10]) := by
  constructor
  · norm_num
  · rw [c4_get_news_with_retry_all_fail (fun _ _ _ => .error .rateLimited) "acme merger"
        5 3 5 (by norm_num) (fun i => ⟨.rateLimited, rfl⟩)]
    norm_num [List.range, List.range.loop]

/-- Claim C10: for every non-empty collected-article list and every
total word budget (including 0), the summarizer emits at least one
complete block, because the budget test runs only after a block has
been appended.  The summarizer collaborator is assumed to answer the
first article normally (an exception there would abort the loop,
cf. C8). -/
theorem c10_first_block_always_emitted (sFn : String → Except PyExc String)
    (len : Nat) (a : CollectedArticle) (rest : List CollectedArticle) (s0 : String)
    (h : sFn a.text = .ok s0) :
    1 ≤ (summarizeLoop sFn len (a :: rest) "").blocks.length := by
  rw [summarizeLoop_cons_ok2 sFn len a rest "" s0 h]
  by_cases hcross : wordCount ("" ++ renderBlock a (clipW len s0)) > len
  · rw [if_pos hcross]
    simp
  · rw [if_neg hcross]
    simp

/-- The summarizer collaborator used by the C10 witness. -/
def c10sFn : String → Except PyExc String := fun _ => .ok "S"

/-- The collected article used by the C10 witness. -/
def c10A : CollectedArticle :=
  { result := { url := some "u", title := "T", date := "D", body := "B" },
    url := "u", text := "X" }

/-- Witness for C10 with total word budget 0: one block is still
emitted. -/
theorem c10_first_block_always_emitted_witness :
    c10sFn c10A.text = .ok "S" ∧
    1 ≤ (summarizeLoop c10sFn 0 [c10A] "").blocks.length :=
  ⟨rfl, c10_first_block_always_emitted c10sFn 0 c10A [] "S" rfl⟩

/-- Claim C1 (amended): the hard word cap applied to every emitted
block's summary portion is `news_summary_length` — the total
draft-budget slider value — not `per_article_summary_length`, which is
only passed to the summarizer collaborator as a length hint.  Every
emitted block's summary portion is the collaborator's summary clipped
at `news_summary_length` words (`clipW`), hence never exceeds
`news_summary_length` words. -/
theorem c1_block_summary_capped_at_total (sFn : String → Except PyExc String)
    (len : Nat) (articles : List CollectedArticle) (acc : String) :
    ∀ b ∈ (summarizeLoop sFn len articles acc).blocks,
      (∃ s0, sFn b.article.text = .ok s0 ∧ b.summary = clipW len s0)
      ∧ wordCount b.summary ≤ len := by
  induction articles generalizing acc with
  | nil =>
    intro b hb
    simp [summarizeLoop_nil] at hb
  | cons a rest ih =>
    intro b hb
    cases hs : sFn a.text with
    | error e =>
      rw [summarizeLoop_cons_error sFn len a rest acc e hs] at hb
      simp at hb
    | ok s0 =>
      rw [summarizeLoop_cons_ok2 sFn len a rest acc s0 hs] at hb
      have hcap : wordCount (clipW len s0) ≤ len := by
        unfold clipW
        by_cases h0 : wordCount s0 > len
        · rw [if_pos h0]
          exact wordCount_truncate_le s0 len
        · rw [if_neg h0]
          omega
      by_cases hcross : wordCount (acc ++ renderBlock a (clipW len s0)) > len
      · rw [if_pos hcross] at hb
        simp at hb
        subst hb
        exact ⟨⟨s0, hs, rfl⟩, hcap⟩
      · rw [if_neg hcross] at hb
        simp at hb
        rcases hb with hb | hb
        · subst hb
          exact ⟨⟨s0, hs, rfl⟩, hcap⟩
        · exact ih _ b hb

/-- The summarizer collaborator used by the C1 fixtures: always
answers with a three-word summary. -/
def c1sFn : String → Except PyExc String := fun _ => .ok "a b c"

/-- The collected article used by the C1 witness. -/
def c1A : CollectedArticle :=
  { result := { url := some "u", title := "T", date := "D", body := "B" },
    url := "u", text := "X" }

/-- Witness for C1 (amended): with `news_summary_length = 2` the
three-word summary is clipped to its first two words. -/
theorem c1_block_summary_capped_at_total_witness :
    ({ article := c1A, summary := "a b" } : EmittedBlock)
        ∈ (summarizeLoop c1sFn 2 [c1A] "").blocks
    ∧ ((∃ s0, c1sFn (({ article := c1A, summary := "a b" } : EmittedBlock)).article.text
          = .ok s0
        ∧ (({ article := c1A, summary := "a b" } : EmittedBlock)).summary = clipW 2 s0)
      ∧ wordCount (({ article := c1A, summary := "a b" } : EmittedBlock)).summary ≤ 2) :=
  ⟨by decide,
    c1_block_summary_capped_at_total c1sFn 2 [c1A] ""
      { article := c1A, summary := "a b" } (by decide)⟩

/-- The pipeline configuration of the C1 counterexample: per-article
cap 2 and total budget 50. -/
def c1cfg : PipelineConfig :=
  { use_case := "Business News", article_topic := "t", num_search_results := 1,
    per_article_summary_length := 2, news_summary_length := 50,
    summary_model := "m", writer_model := "w" }

/-- The search result of the C1 counterexample. -/
def c1r : SearchResult := { url := some "u", title := "T", date := "D", body := "B" }

/-- The collaborators of the C1 counterexample: one result, a
successful scrape, and a summarizer that ignores its length hint and
answers five words. -/
def c1co : Collaborators :=
  { provider := fun _ _ _ => .ok [c1r],
    scrape := fun _ => .ok (some [("text", "X")]),
    summarizerOf := fun _ _ _ => .ok "a b c d e",
    writerOf := fun _ _ => [] }

/-- Counterexample to C1 as stated: with per-article word cap
`per_article_summary_length = 2` and a collaborator summary of five
words, the emitted block's summary portion is the full five-word
summary, not its first two words — the code truncates against
`news_summary_length` (here 50), so the five-word summary passes
through untouched. -/
theorem c1_per_article_cap_cex :
    c1cfg.per_article_summary_length = 2
    ∧ (runPipeline c1cfg c1co).summary_blocks.map EmittedBlock.summary = ["a b c d e"]
    ∧ wordCount "a b c d e" = 5
    ∧ truncate_text "a b c d e" 2 = "a b" := by decide

/-- Claim C2 (amended): the collector keeps an item only when the
scrape of its URL succeeded (raised nothing) and returned a truthy
(non-`None`, non-empty) dict containing a `"text"` key, whose value
becomes the item's `text`.  The text value itself is not checked for
non-emptiness. -/
theorem c2_collect_kept_only_on_scrape_success
    (scrape : String → Except PyExc (Option ArticleData)) (rs : List SearchResult) :
    ∀ a ∈ collect scrape rs,
      ∃ d, scrape a.url = .ok (some d) ∧ d ≠ [] ∧ d.lookup "text" = some a.text := by
  induction rs with
  | nil =>
    intro a ha
    simp [collect] at ha
  | cons r rs ih =>
    intro a ha
    cases hu : r.url with
    | none =>
      simp only [collect, hu] at ha
      exact ih a ha
    | some u =>
      cases hsc : scrape u with
      | error e =>
        simp only [collect, hu, hsc] at ha
        exact ih a ha
      | ok ad =>
        cases ad with
        | none =>
          simp only [collect, hu, hsc] at ha
          exact ih a ha
        | some d =>
          by_cases hd : d = []
          · simp only [collect, hu, hsc, if_pos hd] at ha
            exact ih a ha
          · cases ht : d.lookup "text" with
            | none =>
              simp only [collect, hu, hsc, if_neg hd, ht] at ha
              exact ih a ha
            | some t =>
              simp only [collect, hu, hsc, if_neg hd, ht] at ha
              rcases List.mem_cons.mp ha with ha | ha
              · subst ha
                exact ⟨d, hsc, hd, ht⟩
              · exact ih a ha

/-- The search result of the C2 fixtures. -/
def c2r : SearchResult := { url := some "u", title := "T", date := "D", body := "B" }

/-- A scrape that succeeds with the truthy dict holding an empty
text. -/
def c2scrape : String → Except PyExc (Option ArticleData) :=
  fun _ => .ok (some [("text", "")])

/-- Witness for C2 (amended) at a concrete kept article. -/
theorem c2_collect_kept_only_on_scrape_success_witness :
    ({ result := c2r, url := "u", text := "" } : CollectedArticle)
        ∈ collect c2scrape [c2r]
    ∧ ∃ d, c2scrape (({ result := c2r, url := "u", text := "" } : CollectedArticle)).url
          = .ok (some d)
        ∧ d ≠ []
        ∧ d.lookup "text"
          = some (({ result := c2r, url := "u", text := "" } : CollectedArticle)).text :=
  ⟨by decide,
    c2_collect_kept_only_on_scrape_success c2scrape [c2r]
      { result := c2r, url := "u", text := "" } (by decide)⟩

/-- Counterexample to C2 as stated: a scrape returning the truthy dict
with key `"text"` mapped to the empty string is kept, so the output
contains a `CollectedArticle` whose `text` field is empty — the code
checks only `article_data and "text" in article_data`, never that the
text is non-empty. -/
theorem c2_nonempty_text_cex :
    (collect c2scrape [c2r]).map CollectedArticle.text = [""] := by decide

/-- Claim C3 (amended): the summarizer stops at the first block after
whose appending the cumulative word count of the running output is
strictly greater than the budget (`>`, not `≥`).  For a non-aborted
run: the final text is exactly the emitted blocks in order; the blocks
correspond to the prefix of the article list of their own length (no
later article is processed); every proper prefix of the emitted blocks
kept the cumulative word count within the budget (so the stop is at
the first strict crossing, and the crossing block is kept in full);
and either all articles were processed or the final text crossed the
budget. -/
theorem c3_early_stop (sFn : String → Except PyExc String) (len : Nat)
    (articles : List CollectedArticle)
    (herr : (summarizeLoop sFn len articles "").err = none) :
    (summarizeLoop sFn len articles "").text
        = strConcat ((summarizeLoop sFn len articles "").blocks.map renderEmitted)
    ∧ (summarizeLoop sFn len articles "").blocks.map EmittedBlock.article
        = articles.take (summarizeLoop sFn len articles "").blocks.length
    ∧ (∀ j, j + 1 < (summarizeLoop sFn len articles "").blocks.length →
        wordCount (strConcat
          (((summarizeLoop sFn len articles "").blocks.take (j + 1)).map renderEmitted))
          ≤ len)
    ∧ ((summarizeLoop sFn len articles "").blocks.length = articles.length
        ∨ len < wordCount ((summarizeLoop sFn len articles "").text)) := by
  obtain ⟨h1, h2, h3, h4⟩ := summarizeLoop_spec sFn len articles "" herr
  refine ⟨?_, h2, ?_, h4⟩
  · rwa [String.empty_append] at h1
  · intro j hj
    have h5 := h3 j hj
    rwa [String.empty_append] at h5

/-- The summarizer collaborator of the C3 fixtures: always answers the
one-word summary `"S"`. -/
def c3sFn : String → Except PyExc String := fun _ => .ok "S"

/-- First collected article of the C3 fixtures.  Its rendered block
with the one-word summary has exactly 15 words. -/
def c3A1 : CollectedArticle :=
  { result := { url := some "U", title := "T", date := "D", body := "B" },
    url := "U", text := "X" }

/-- Second collected article of the C3 fixtures. -/
def c3A2 : CollectedArticle :=
  { result := { url := some "V", title := "T2", date := "D2", body := "B2" },
    url := "V", text := "Y" }

/-- Witness for C3 (amended) on a one-article run with budget 100. -/
theorem c3_early_stop_witness :
    (summarizeLoop c3sFn 100 [c3A1] "").err = none
    ∧ ((summarizeLoop c3sFn 100 [c3A1] "").text
        = strConcat ((summarizeLoop c3sFn 100 [c3A1] "").blocks.map renderEmitted)
    ∧ (summarizeLoop c3sFn 100 [c3A1] "").blocks.map EmittedBlock.article
        = [c3A1].take (summarizeLoop c3sFn 100 [c3A1] "").blocks.length
    ∧ (∀ j, j + 1 < (summarizeLoop c3sFn 100 [c3A1] "").blocks.length →
        wordCount (strConcat
          (((summarizeLoop c3sFn 100 [c3A1] "").blocks.take (j + 1)).map renderEmitted))
          ≤ 100)
    ∧ ((summarizeLoop c3sFn 100 [c3A1] "").blocks.length = [c3A1].length
        ∨ 100 < wordCount ((summarizeLoop c3sFn 100 [c3A1] "").text))) :=
  ⟨by decide, c3_early_stop c3sFn 100 [c3A1] (by decide)⟩

/-- Counterexample to C3 as stated (stop as soon as the cumulative
word count is `≥ B`): with budget 15 the cumulative word count after
the first block is exactly 15, so the claim demands that processing
stop there; but the loop uses a strict comparison and processes the
second article as well, emitting two blocks. -/
theorem c3_early_stop_cex :
    wordCount ((summarizeLoop c3sFn 15 [c3A1] "").text) = 15
    ∧ (summarizeLoop c3sFn 15 [c3A1] "").blocks.length = 1
    ∧ (summarizeLoop c3sFn 15 [c3A1, c3A2] "").blocks.length = 2 := by decide

/-- Claim C5: when zero articles are collected (in particular when the
fetch returned the empty list), the run terminates in the
`SkippedNoNews` state with the user-visible no-results message: the
summarizer is never invoked, no draft is assembled, the generator is
never invoked, and no final article is produced. -/
theorem c5_skipped_no_news (cfg : PipelineConfig) (co : Collaborators)
    (h : (runPipeline cfg co).news_results = []) :
    (runPipeline cfg co).outcome
        = .skippedNoNews
            "Sorry could not find any news or web search results. Please try again."
    ∧ (runPipeline cfg co).summarizerInvoked = false
    ∧ (runPipeline cfg co).news_summary = none
    ∧ (runPipeline cfg co).article_draft = none
    ∧ (runPipeline cfg co).generatorInvoked = false := by
  obtain ⟨⟨results, n, ds⟩, hv⟩ := retryAttempts_ok co.provider cfg.article_topic
      cfg.num_search_results 3 5 (List.range 3)
  have hrp : runPipeline cfg co = pipelineAfterFetch cfg co results :=
    runPipeline_fetch_ok cfg co results n ds hv
  rw [hrp] at h ⊢
  have hnil : collect co.scrape results = [] := by
    rw [pipelineAfterFetch_news_results] at h
    exact h
  rw [pipelineAfterFetch_nil cfg co results hnil]
  exact ⟨rfl, rfl, rfl, rfl, rfl⟩

/-- The pipeline configuration of the C5 witness. -/
def c5cfg : PipelineConfig :=
  { use_case := "Business News", article_topic := "nothing", num_search_results := 3,
    per_article_summary_length := 100, news_summary_length := 1000,
    summary_model := "m", writer_model := "w" }

/-- The collaborators of the C5 witness: the provider finds nothing. -/
def c5co : Collaborators :=
  { provider := fun _ _ _ => .ok [],
    scrape := fun _ => .ok none,
    summarizerOf := fun _ _ _ => .ok "",
    writerOf := fun _ _ => [] }

/-- Witness for C5: a provider returning zero results yields the
`SkippedNoNews` outcome with the no-results message and no later stage
runs. -/
theorem c5_skipped_no_news_witness :
    (runPipeline c5cfg c5co).news_results = []
    ∧ ((runPipeline c5cfg c5co).outcome
        = .skippedNoNews
            "Sorry could not find any news or web search results. Please try again."
    ∧ (runPipeline c5cfg c5co).summarizerInvoked = false
    ∧ (runPipeline c5cfg c5co).news_summary = none
    ∧ (runPipeline c5cfg c5co).article_draft = none
    ∧ (runPipeline c5cfg c5co).generatorInvoked = false) :=
  ⟨by decide, c5_skipped_no_news c5cfg c5co (by decide)⟩

/-- Claim C8: if the summarizer collaborator raises for the article it
is invoked on, the exception propagates out of the summarization loop
and aborts the entire run: the loop result carries the exception, no
block is appended for the failing article, no article after it is
processed (the result is independent of the remaining articles), and
the pipeline ends in the `aborted` state — the generator is never
invoked and no draft is assembled.  Here `pre` is the fully-processed
prefix before the failing article: every `pre` article got a block and
the budget was not yet crossed, otherwise the failing article would
never have been reached (scrape failures, by contrast, are caught per
item in the collector, cf. C2/C7). -/
theorem c8_summarizer_error_aborts (sFn : String → Except PyExc String) (len : Nat)
    (pre : List CollectedArticle) (a : CollectedArticle) (rest : List CollectedArticle)
    (e : PyExc)
    (hok : (summarizeLoop sFn len pre "").err = none)
    (hall : (summarizeLoop sFn len pre "").blocks.length = pre.length)
    (hbud : wordCount ((summarizeLoop sFn len pre "").text) ≤ len)
    (herr : sFn a.text = .error e) :
    (summarizeLoop sFn len (pre ++ a :: rest) "").err = some e
    ∧ (summarizeLoop sFn len (pre ++ a :: rest) "").blocks.length = pre.length
    ∧ (summarizeLoop sFn len (pre ++ a :: rest) "").text
        = (summarizeLoop sFn len pre "").text ++ renderHeader a
    ∧ (∀ rest2, summarizeLoop sFn len (pre ++ a :: rest2) ""
        = summarizeLoop sFn len (pre ++ a :: rest) "")
    ∧ (∀ (cfg : PipelineConfig) (co : Collaborators) results n ds,
        get_news_with_retry co.provider cfg.article_topic cfg.num_search_results 3 5
            = .ok (results, n, ds) →
        collect co.scrape results = pre ++ a :: rest →
        co.summarizerOf cfg.summary_model cfg.per_article_summary_length = sFn →
        cfg.news_summary_length = len →
        (runPipeline cfg co).outcome = .aborted e
          ∧ (runPipeline cfg co).generatorInvoked = false
          ∧ (runPipeline cfg co).article_draft = none) := by
  have key : ∀ r2 : List CollectedArticle, summarizeLoop sFn len (pre ++ a :: r2) "" =
      { text := (summarizeLoop sFn len pre "").text ++ renderHeader a,
        blocks := (summarizeLoop sFn len pre "").blocks, err := some e } := by
    intro r2
    rw [summarizeLoop_append sFn len pre (a :: r2) "" hok hall hbud,
      summarizeLoop_cons_error sFn len a r2 _ e herr]
    simp
  refine ⟨?_, ?_, ?_, ?_, ?_⟩
  · rw [key rest]
  · rw [key rest]
    exact hall
  · rw [key rest]
  · intro r2
    rw [key r2, key rest]
  · intro cfg co results n ds hfetch hcoll hsfn hlen
    have hrp : runPipeline cfg co = pipelineAfterFetch cfg co results :=
      runPipeline_fetch_ok cfg co results n ds hfetch
    have hne : (collect co.scrape results).length > 0 := by
      rw [hcoll]
      simp
    have herr2 : (summarizeLoop
        (co.summarizerOf cfg.summary_model cfg.per_article_summary_length)
        cfg.news_summary_length (collect co.scrape results) "").err = some e := by
      rw [hcoll, hsfn, hlen, key rest]
    rw [hrp, pipelineAfterFetch_err cfg co results e hne herr2]
    exact ⟨rfl, rfl, rfl⟩

/-- The summarizer collaborator of the C8 witness: always raises. -/
def c8sFn : String → Except PyExc String := fun _ => .error (.other "boom")

/-- The search result of the C8 witness. -/
def c8r : SearchResult := { url := some "u", title := "T", date := "D", body := "B" }

/-- The collected article of the C8 witness. -/
def c8A : CollectedArticle := { result := c8r, url := "u", text := "X" }

/-- The pipeline configuration of the C8 witness. -/
def c8cfg : PipelineConfig :=
  { use_case := "Business News", article_topic := "t", num_search_results := 3,
    per_article_summary_length := 100, news_summary_length := 1000,
    summary_model := "m", writer_model := "w" }

/-- The collaborators of the C8 witness: one result, a successful
scrape, and a summarizer that raises on its first call. -/
def c8co : Collaborators :=
  { provider := fun _ _ _ => .ok [c8r],
    scrape := fun _ => .ok (some [("text", "X")]),
    summarizerOf := fun _ _ => c8sFn,
    writerOf := fun _ _ => [] }

/-- Witness for C8: with the failing article first, the run aborts
with the collaborator's exception and the generator never runs. -/
theorem c8_summarizer_error_aborts_witness :
    ((summarizeLoop c8sFn 1000 ([] : List CollectedArticle) "").err = none
      ∧ (summarizeLoop c8sFn 1000 ([] : List CollectedArticle) "").blocks.length
          = ([] : List CollectedArticle).length
      ∧ wordCount ((summarizeLoop c8sFn 1000 ([] : List CollectedArticle) "").text) ≤ 1000
      ∧ c8sFn c8A.text = .error (.other "boom"))
    ∧ (runPipeline c8cfg c8co).outcome = .aborted (.other "boom")
    ∧ (runPipeline c8cfg c8co).generatorInvoked = false
    ∧ (runPipeline c8cfg c8co).article_draft = none :=
  ⟨⟨rfl, rfl, by decide, rfl⟩,
    (c8_summarizer_error_aborts c8sFn 1000 [] c8A [] (.other "boom")
        rfl rfl (by decide) rfl).2.2.2.2
      c8cfg c8co [c8r] 1 [] rfl (by decide) rfl rfl⟩

end NewsPipeline
